import Mathlib

/-!
Shallow embedding of `src/contexts/AuthContext.tsx`: a session provider
wrapping an external identity backend (supabase). The provider holds
`user`, `session`, `loading`; on auth-state-change notifications and on the
initial `getSession` response it stores the reported session and runs a
profile-sync routine that backfills a `discord_id` column on the `profiles`
table from the user's metadata `provider_id`.
-/

namespace AuthContext

/-- JavaScript truthiness of an optional string value: `undefined`/`null`
and the empty string are falsy, every other string is truthy. -/
def jsTruthy : Option String → Bool
  | none => false
  | some s => !(s == "")

/-- The `user_metadata` object on a supabase `User`; the sync routine reads
`provider_id` from it, and signUp attaches `hunter_name` to it. -/
structure UserMetadata where
  provider_id : Option String
  hunter_name : Option String
deriving DecidableEq, Repr

/-- A supabase `User`: unique id, email, and optional provider metadata
(the source reads it via `session.user.user_metadata?.provider_id`). -/
structure User where
  id : String
  email : String
  user_metadata : Option UserMetadata
deriving DecidableEq, Repr

/-- A supabase `Session`: credential bundle with an embedded user. -/
structure Session where
  user : User
deriving DecidableEq, Repr

/-- A row of the `profiles` table: the key `user_id`, the `discord_id`
column the sync routine may write, and the remaining (unmodeled) columns. -/
structure Profile where
  user_id : String
  discord_id : Option String
  otherFields : List (String × String)
deriving DecidableEq, Repr

/-- Embeds `supabase.from('profiles').select('discord_id').eq('user_id', uid).single()`:
yields the row when exactly one row matches; with zero or several matching
rows `.single()` errors, and the handler destructures only `data`, which is
then null — modeled as `none`. -/
def selectSingle (db : List Profile) (uid : String) : Option Profile :=
  match db.filter (fun r => r.user_id == uid) with
  | [p] => some p
  | _ => none

/-- Embeds `supabase.from('profiles').update({ discord_id: d }).eq('user_id', uid)`:
sets the `discord_id` column on every row whose `user_id` matches, leaving
all other columns and rows unchanged. -/
def updateDiscordId (db : List Profile) (uid d : String) : List Profile :=
  db.map (fun r => if r.user_id == uid then { r with discord_id := some d } else r)

/-- An operation issued against the profile store. -/
inductive StoreOp
  | select (uid : String)
  | update (uid : String) (newId : String)
deriving DecidableEq, Repr

/-- Whether a store operation is a write. -/
def StoreOp.isUpdate : StoreOp → Bool
  | StoreOp.update _ _ => true
  | _ => false

/-- The profile-sync body shared verbatim by the `onAuthStateChange` handler
(lines 38–55) and the `getSession` handler (lines 66–87):

```
const discordId = session.user.user_metadata?.provider_id;
if (discordId) {
  const { data: profile } = await supabase.from('profiles')
    .select('discord_id').eq('user_id', session.user.id).single();
  if (profile && !profile.discord_id) {
    await supabase.from('profiles')
      .update({ discord_id: discordId }).eq('user_id', session.user.id);
  }
}
```

Returns the resulting profile store together with the list of store
operations issued, in order. -/
def syncRun (db : List Profile) (u : User) : List Profile × List StoreOp :=
  match u.user_metadata.bind UserMetadata.provider_id with
  | none => (db, [])
  | some d =>
    if d == "" then
      (db, [])
    else
      match selectSingle db u.id with
      | none => (db, [StoreOp.select u.id])
      | some p =>
        if jsTruthy p.discord_id then
          (db, [StoreOp.select u.id])
        else
          (updateDiscordId db u.id d, [StoreOp.select u.id, StoreOp.update u.id d])

/-- The provider's held state: the exposed `user`, `session` and `loading`
React state, together with the external profile store the sync writes to. -/
structure AuthState where
  user : Option User
  session : Option Session
  loading : Bool
  profiles : List Profile
deriving DecidableEq, Repr

/-- The provider's initial state: `useState<User|null>(null)`,
`useState<Session|null>(null)`, `useState(true)`. -/
def initState (db : List Profile) : AuthState :=
  { user := none, session := none, loading := true, profiles := db }

/-- Action `signOut`: `await supabase.auth.signOut()` returns `{ error }`, which
the source discards, then `setUser(null); setSession(null)` run
unconditionally. `backendError` is the (ignored) outcome of the backend
call. -/
def signOut (backendError : Bool) (σ : AuthState) : AuthState :=
  { σ with user := none, session := none }

/-- Asynchronous events the provider reacts to. -/
inductive Event
  | authChange (s : Option Session)
  | sessionFetched (s : Option Session)
  | signOutCall (backendError : Bool)
deriving DecidableEq, Repr

/-- Whether an event is the resolution of the explicit `getSession` fetch. -/
def Event.isSessionFetched : Event → Bool
  | Event.sessionFetched _ => true
  | _ => false

/-- Run the profile-sync side effect of a handler when a user is present
(`if (session?.user) { ... }`). -/
def runSync (σ : AuthState) (s : Option Session) : AuthState :=
  match s with
  | some ss => { σ with profiles := (syncRun σ.profiles ss.user).1 }
  | none => σ

/-- One event processed by the provider.

* `authChange s` (lines 33–56): `setSession(session); setUser(session?.user
  ?? null)` then the sync body; `loading` untouched.
* `sessionFetched s` (lines 60–88): same stores plus `setLoading(false)`.
* `signOutCall` (lines 138–142): backend sign-out then unconditional local
  clearing. -/
def step (σ : AuthState) : Event → AuthState
  | Event.authChange s =>
    runSync { σ with session := s, user := Option.map Session.user s } s
  | Event.sessionFetched s =>
    runSync { σ with session := s, user := Option.map Session.user s, loading := false } s
  | Event.signOutCall b => signOut b σ

/-- Process a sequence of events from a starting state. -/
def run (σ : AuthState) (evs : List Event) : AuthState :=
  evs.foldl step σ

/-- The value the provider exposes through the context (the action closures
are behavioural and modeled separately; here the exposed state). -/
structure AuthContextType where
  user : Option User
  session : Option Session
  loading : Bool
deriving DecidableEq, Repr

/-- Accessor `useAuth` (lines 18–24): reads the context value — `undefined` outside a
provider — and throws `new Error('useAuth must be used within an
AuthProvider')` when it is absent, otherwise returns it. The throw is
modeled as `Except.error`, returned synchronously (this is a plain
function, not a promise). -/
def useAuth : Option AuthContextType → Except String AuthContextType
  | none => Except.error "useAuth must be used within an AuthProvider"
  | some context => Except.ok context

/-- The argument object `signUp` passes to `supabase.auth.signUp` (lines
96–105). -/
structure SignUpRequest where
  email : String
  password : String
  emailRedirectTo : String
  hunter_name : String
deriving DecidableEq, Repr

/-- Action `signUp` (lines 93–108): builds `redirectUrl = window.location.origin +
"/"` and calls `supabase.auth.signUp` with the given email and password,
`options.emailRedirectTo = redirectUrl`, and metadata `{ hunter_name:
hunterName }`. `origin` stands for `window.location.origin`. -/
def signUpRequest (origin email password hunterName : String) : SignUpRequest :=
  { email := email
    password := password
    emailRedirectTo := origin ++ "/"
    hunter_name := hunterName }

/-- Calls made against the identity backend by the provider's effect. -/
inductive AuthCall
  | subscribe
  | getSessionRequest
  | unsubscribe
deriving DecidableEq, BEq, Repr

/-- The backend calls issued by the `useEffect` body (lines 31–91), in
program order: `supabase.auth.onAuthStateChange(...)` at line 33, then
`supabase.auth.getSession()` at line 60. -/
def effectSetup : List AuthCall :=
  [AuthCall.subscribe, AuthCall.getSessionRequest]

/-- The backend calls issued by the effect's cleanup function
(`return () => subscription.unsubscribe()`, line 90), which React invokes
once on provider teardown. -/
def effectCleanup : List AuthCall :=
  [AuthCall.unsubscribe]

/-- The full mount-to-unmount call sequence of the provider's effect. -/
def providerLifecycle : List AuthCall :=
  effectSetup ++ effectCleanup

/-! ### Helper lemmas -/

/-- A successful `.single()` select means the filter produced exactly that
row. -/
lemma selectSingle_filter_eq (db : List Profile) (uid : String) (p : Profile)
    (h : selectSingle db uid = some p) :
    db.filter (fun r => r.user_id == uid) = [p] := by
  unfold selectSingle at h
  split at h
  · next q heq =>
    injection h with h
    rw [h] at heq
    exact heq
  · exact absurd h (by simp)

/-- Updating `discord_id` commutes with filtering on `user_id`, since the
update leaves `user_id` unchanged. -/
lemma filter_updateDiscordId (db : List Profile) (uid d : String) :
    (updateDiscordId db uid d).filter (fun r => r.user_id == uid)
      = (db.filter (fun r => r.user_id == uid)).map
          (fun r => { r with discord_id := some d }) := by
  induction db with
  | nil => rfl
  | cons r rest ih =>
    have hcons : updateDiscordId (r :: rest) uid d
        = (if r.user_id == uid then { r with discord_id := some d } else r)
            :: updateDiscordId rest uid d := rfl
    rw [hcons]
    cases hb : (r.user_id == uid) with
    | true =>
      rw [if_pos rfl]
      rw [@List.filter_cons_of_pos Profile (fun r => r.user_id == uid)
        ({ r with discord_id := some d }) (updateDiscordId rest uid d) hb]
      rw [@List.filter_cons_of_pos Profile (fun r => r.user_id == uid) r rest hb]
      rw [List.map_cons, ih]
    | false =>
      have hb1 : ¬ ((r.user_id == uid) = true) := by
        rw [hb]
        exact Bool.false_ne_true
      rw [if_neg Bool.false_ne_true]
      rw [@List.filter_cons_of_neg Profile (fun r => r.user_id == uid) r
        (updateDiscordId rest uid d) hb1]
      rw [@List.filter_cons_of_neg Profile (fun r => r.user_id == uid) r rest hb1]
      rw [ih]

/-- After the conditional write, selecting the same user's row yields the
old row with `discord_id` set. -/
lemma selectSingle_updateDiscordId (db : List Profile) (uid d : String) (p : Profile)
    (h : selectSingle db uid = some p) :
    selectSingle (updateDiscordId db uid d) uid
      = some { p with discord_id := some d } := by
  have hf := selectSingle_filter_eq db uid p h
  unfold selectSingle
  rw [filter_updateDiscordId, hf]
  rfl

/-- The sync routine either leaves the store untouched or performs the
single `discord_id` update for the logged-in user's id. -/
lemma syncRun_fst_cases (db : List Profile) (u : User) :
    (syncRun db u).1 = db ∨ ∃ d, (syncRun db u).1 = updateDiscordId db u.id d := by
  unfold syncRun
  cases u.user_metadata.bind UserMetadata.provider_id with
  | none => exact Or.inl rfl
  | some d =>
    by_cases hd : (d == "") = true
    · simp [hd]
    · simp only [Bool.not_eq_true] at hd
      simp only [hd]
      cases selectSingle db u.id with
      | none => simp
      | some p =>
        by_cases ht : jsTruthy p.discord_id = true
        · simp [ht]
        · simp only [Bool.not_eq_true] at ht
          simp only [ht]
          exact Or.inr ⟨d, rfl⟩

/-- When the metadata id is present, non-empty, the row is found, and its
stored `discord_id` is falsy, the sync performs exactly the select and the
update. -/
lemma syncRun_update_of_absent (db : List Profile) (u : User) (p : Profile) (y : String)
    (hm : u.user_metadata.bind UserMetadata.provider_id = some y) (hy : y ≠ "")
    (hp : selectSingle db u.id = some p) (habs : jsTruthy p.discord_id = false) :
    syncRun db u
      = (updateDiscordId db u.id y, [StoreOp.select u.id, StoreOp.update u.id y]) := by
  have hd : (y == "") = false := by
    simp only [beq_eq_false_iff_ne, ne_eq]
    exact hy
  unfold syncRun
  rw [hm]
  simp only [hd, Bool.false_eq_true, if_false]
  rw [hp]
  simp only [habs, Bool.false_eq_true, if_false]

/-- Frame lemma for the raw update: only the matching row's `discord_id`
may change. -/
lemma updateDiscordId_frame (db : List Profile) (uid d : String) (i : Nat)
    (r r' : Profile) (hr : db[i]? = some r)
    (hr' : (updateDiscordId db uid d)[i]? = some r') :
    r'.user_id = r.user_id ∧ r'.otherFields = r.otherFields
      ∧ (r.user_id ≠ uid → r' = r) := by
  unfold updateDiscordId at hr'
  rw [List.getElem?_map, hr] at hr'
  simp only [Option.map_some'] at hr'
  injection hr' with hr'
  subst hr'
  by_cases h : (r.user_id == uid) = true
  · refine ⟨by rw [if_pos h], by rw [if_pos h], fun hne => absurd (beq_iff_eq.mp h) hne⟩
  · refine ⟨by rw [if_neg h], by rw [if_neg h], fun _ => by rw [if_neg h]⟩

/-- The `runSync` call only touches the profile store. -/
lemma runSync_user (σ : AuthState) (s : Option Session) :
    (runSync σ s).user = σ.user := by
  cases s <;> rfl

/-- The `runSync` call leaves `loading` unchanged. -/
lemma runSync_loading (σ : AuthState) (s : Option Session) :
    (runSync σ s).loading = σ.loading := by
  cases s <;> rfl

/-- A step keeps `loading` unless it is the resolution of the explicit
session fetch, which forces it to `false`. -/
lemma step_loading (σ : AuthState) (e : Event) :
    (step σ e).loading = (σ.loading && !Event.isSessionFetched e) := by
  cases e with
  | authChange s => cases s <;> simp [step, runSync, Event.isSessionFetched]
  | sessionFetched s => cases s <;> simp [step, runSync, Event.isSessionFetched]
  | signOutCall b => simp [step, signOut, Event.isSessionFetched]

/-- The `loading` flag after a run: true exactly when no session-fetch resolution
has been processed (and it was true to begin with). -/
lemma run_loading (σ : AuthState) (evs : List Event) :
    (run σ evs).loading
      = (σ.loading && evs.all (fun e => !Event.isSessionFetched e)) := by
  induction evs generalizing σ with
  | nil => simp [run]
  | cons e rest ih =>
    have h1 : run σ (e :: rest) = run (step σ e) rest := rfl
    rw [h1, ih, step_loading, List.all_cons, Bool.and_assoc]

/-- Splitting a run at its last event. -/
lemma run_append_single (σ : AuthState) (evs : List Event) (e : Event) :
    run σ (evs ++ [e]) = step (run σ evs) e := by
  simp [run, List.foldl_append]

/-! ### Concrete sample data for the witnesses -/

/-- A profile row already linked to discord id `"X"`. -/
def profileX : Profile :=
  { user_id := "u1", discord_id := some "X", otherFields := [] }

/-- A profile row whose `discord_id` is null. -/
def profileNone : Profile :=
  { user_id := "u1", discord_id := none, otherFields := [("bio", "b")] }

/-- A profile row whose `discord_id` is the empty string. -/
def profileEmptyStr : Profile :=
  { user_id := "u1", discord_id := some "", otherFields := [] }

/-- A user whose metadata carries provider id `"Y"`. -/
def userY : User :=
  { id := "u1", email := "hunter@example.com",
    user_metadata := some { provider_id := some "Y", hunter_name := none } }

/-- A user with provider id `"Y"` but an id matching no profile row. -/
def userOther : User :=
  { id := "u2", email := "other@example.com",
    user_metadata := some { provider_id := some "Y", hunter_name := none } }

/-- A user whose metadata carries the empty string as provider id. -/
def userEmptyPid : User :=
  { id := "u1", email := "hunter@example.com",
    user_metadata := some { provider_id := some "", hunter_name := none } }

/-! ### Claims -/

/-- C1: for every invocation of `signOut`, after it completes the
provider's `user` and `session` are absent, even when the underlying
backend sign-out call fails — the local clearing never looks at the
backend outcome. -/
theorem signOut_clears_locally (σ : AuthState) (backendError : Bool) :
    (signOut backendError σ).user = none ∧ (signOut backendError σ).session = none :=
  ⟨rfl, rfl⟩

/-- C2: when the stored `discord_id` of the logged-in user's profile row is
a non-empty value, Profile Sync issues no update — the profile store is
unchanged and no write operation is emitted — whatever provider id the
processed login carries. -/
theorem profileSync_never_overwrites (db : List Profile) (u : User) (p : Profile)
    (x : String) (hp : selectSingle db u.id = some p) (hx : p.discord_id = some x)
    (hx0 : x ≠ "") :
    (syncRun db u).1 = db
      ∧ (syncRun db u).2.all (fun op => !StoreOp.isUpdate op) = true := by
  have ht : jsTruthy p.discord_id = true := by
    rw [hx]
    simp only [jsTruthy, Bool.not_eq_true', beq_eq_false_iff_ne, ne_eq]
    exact hx0
  unfold syncRun
  cases hm : u.user_metadata.bind UserMetadata.provider_id with
  | none => exact ⟨rfl, rfl⟩
  | some d =>
    by_cases hd : (d == "") = true
    · simp [hd]
    · simp only [Bool.not_eq_true] at hd
      simp only [hd, Bool.false_eq_true, if_false]
      rw [hp]
      simp [ht, StoreOp.isUpdate]

/-- C2 witness: a profile linked to `"X"` and a login carrying `"Y"` leave
the store untouched and emit no update. -/
theorem profileSync_never_overwrites_witness :
    (syncRun [profileX] userY).1 = [profileX]
      ∧ (syncRun [profileX] userY).2.all (fun op => !StoreOp.isUpdate op) = true :=
  profileSync_never_overwrites [profileX] userY profileX "X" (by decide) (by decide)
    (by decide)

/-- C3: when the logged-in user's profile row exists with an absent
`discord_id` and the login's metadata carries a non-empty provider id,
Profile Sync sets that row's `discord_id` to the discovered id. -/
theorem profileSync_writes_when_absent (db : List Profile) (u : User) (p : Profile)
    (y : String) (hm : u.user_metadata.bind UserMetadata.provider_id = some y)
    (hy : y ≠ "") (hp : selectSingle db u.id = some p)
    (habs : jsTruthy p.discord_id = false) :
    selectSingle (syncRun db u).1 u.id = some { p with discord_id := some y } := by
  rw [syncRun_update_of_absent db u p y hm hy hp habs]
  exact selectSingle_updateDiscordId db u.id y p hp

/-- C3 witness: a row with null `discord_id` and a login carrying `"Y"`
end up stored as `"Y"`. -/
theorem profileSync_writes_when_absent_witness :
    selectSingle (syncRun [profileNone] userY).1 userY.id
      = some { profileNone with discord_id := some "Y" } :=
  profileSync_writes_when_absent [profileNone] userY profileNone "Y" rfl (by decide)
    (by decide) rfl

/-- C4: after any processed change notification, the provider's `user`
equals exactly the notified session's embedded user — absent when the
notified session is absent — for every starting state and every preceding
event sequence. -/
theorem user_tracks_last_notification (σ : AuthState) (evs : List Event)
    (s : Option Session) :
    (run σ (evs ++ [Event.authChange s])).user = Option.map Session.user s := by
  rw [run_append_single]
  cases s <;> rfl

/-- C5: `loading` starts `true`; after any event sequence it is `true`
exactly while no session-fetch resolution has been processed (so it flips
to `false` at the first such resolution and never returns to `true`), and
neither notification processing nor sign-out ever changes it. -/
theorem loading_lifecycle (db : List Profile) (evs : List Event) :
    (initState db).loading = true
    ∧ (run (initState db) evs).loading = evs.all (fun e => !Event.isSessionFetched e)
    ∧ (∀ σ s, (step σ (Event.authChange s)).loading = σ.loading)
    ∧ (∀ σ b, (step σ (Event.signOutCall b)).loading = σ.loading)
    ∧ (∀ σ s, (step σ (Event.sessionFetched s)).loading = false) := by
  refine ⟨rfl, ?_, ?_, ?_, ?_⟩
  · rw [run_loading]
    simp [initState]
  · intro σ s
    rw [step_loading]
    simp [Event.isSessionFetched]
  · intro σ b
    rw [step_loading]
    simp [Event.isSessionFetched]
  · intro σ s
    rw [step_loading]
    simp [Event.isSessionFetched]

/-- C6: calling `useAuth` with no enclosing provider (the context value is
`undefined`) raises the wiring error synchronously instead of returning a
context value. -/
theorem useAuth_errors_outside_provider :
    useAuth none = Except.error "useAuth must be used within an AuthProvider" := rfl

/-- C7: `signUp` calls the backend register operation with exactly the
given email and password, metadata exactly `{ hunter_name := name }`, and
an email redirect target equal to the current origin plus `"/"`. -/
theorem signUp_passes_exact_arguments (origin email password hunterName : String) :
    (signUpRequest origin email password hunterName).email = email
    ∧ (signUpRequest origin email password hunterName).password = password
    ∧ (signUpRequest origin email password hunterName).hunter_name = hunterName
    ∧ (signUpRequest origin email password hunterName).emailRedirectTo = origin ++ "/" :=
  ⟨rfl, rfl, rfl, rfl⟩

/-- C8: in the effect's call sequence the subscription is registered
strictly before the explicit session fetch is issued, the setup phase never
releases the subscription, and the teardown phase releases it exactly once
(so the whole lifecycle releases it exactly once). -/
theorem subscription_armed_before_fetch_released_once :
    effectSetup.indexOf AuthCall.subscribe
        < effectSetup.indexOf AuthCall.getSessionRequest
    ∧ effectSetup.count AuthCall.unsubscribe = 0
    ∧ effectCleanup.count AuthCall.unsubscribe = 1
    ∧ providerLifecycle.count AuthCall.unsubscribe = 1 := by
  decide

/-- C9: when no profile row matches the logged-in user's id, Profile Sync
leaves the store unchanged and issues no write (in particular it inserts
nothing); and in every case it preserves the number of rows, each row's
`user_id` and unmodeled columns, and every row whose `user_id` differs from
the logged-in user's id in full. -/
theorem profileSync_frame (db : List Profile) (u : User) :
    (db.filter (fun r => r.user_id == u.id) = [] →
      (syncRun db u).1 = db
        ∧ (syncRun db u).2.all (fun op => !StoreOp.isUpdate op) = true)
    ∧ (syncRun db u).1.length = db.length
    ∧ (∀ i : Nat, ∀ r r' : Profile,
        db[i]? = some r → (syncRun db u).1[i]? = some r' →
          r'.user_id = r.user_id ∧ r'.otherFields = r.otherFields
            ∧ (r.user_id ≠ u.id → r' = r)) := by
  refine ⟨?_, ?_, ?_⟩
  · intro hf
    have hsel : selectSingle db u.id = none := by
      unfold selectSingle
      rw [hf]
    unfold syncRun
    cases u.user_metadata.bind UserMetadata.provider_id with
    | none => exact ⟨rfl, rfl⟩
    | some d =>
      by_cases hd : (d == "") = true
      · simp [hd]
      · simp only [Bool.not_eq_true] at hd
        simp only [hd, Bool.false_eq_true, if_false]
        rw [hsel]
        exact ⟨rfl, rfl⟩
  · rcases syncRun_fst_cases db u with h | ⟨d, h⟩
    · rw [h]
    · rw [h]
      simp [updateDiscordId]
  · intro i r r' hr hr'
    rcases syncRun_fst_cases db u with h | ⟨d, h⟩
    · rw [h, hr] at hr'
      injection hr' with hr'
      subst hr'
      exact ⟨rfl, rfl, fun _ => rfl⟩
    · rw [h] at hr'
      exact updateDiscordId_frame db u.id d i r r' hr hr'

/-- C9 witness: with a single row belonging to a different user, a
processed login changes nothing and issues no write. -/
theorem profileSync_frame_witness :
    (syncRun [profileX] userOther).1 = [profileX]
      ∧ (syncRun [profileX] userOther).2.all (fun op => !StoreOp.isUpdate op) = true :=
  (profileSync_frame [profileX] userOther).1 (by decide)

/-- C10: both sync gates use JavaScript falsiness — a login whose metadata
provider id is falsy (absent or the empty string) triggers no store
operation at all, and a stored `discord_id` equal to the empty string is
treated as absent and overwritten with the discovered provider id. -/
theorem profileSync_falsy_gates (db : List Profile) (u : User) :
    (jsTruthy (u.user_metadata.bind UserMetadata.provider_id) = false →
      syncRun db u = (db, []))
    ∧ (∀ p y, selectSingle db u.id = some p → p.discord_id = some "" →
        u.user_metadata.bind UserMetadata.provider_id = some y → y ≠ "" →
        selectSingle (syncRun db u).1 u.id
          = some { p with discord_id := some y }) := by
  constructor
  · intro hf
    unfold syncRun
    cases hm : u.user_metadata.bind UserMetadata.provider_id with
    | none => rfl
    | some d =>
      rw [hm] at hf
      simp only [jsTruthy, Bool.not_eq_false'] at hf
      simp [hf]
  · intro p y hp h0 hm hy
    have habs : jsTruthy p.discord_id = false := by
      rw [h0]
      rfl
    rw [syncRun_update_of_absent db u p y hm hy hp habs]
    exact selectSingle_updateDiscordId db u.id y p hp

/-- C10 witness: a login carrying the empty string as provider id performs
no store operation, and a row storing the empty string is overwritten with
`"Y"` on a login carrying `"Y"`. -/
theorem profileSync_falsy_gates_witness :
    syncRun [profileEmptyStr] userEmptyPid = ([profileEmptyStr], [])
      ∧ selectSingle (syncRun [profileEmptyStr] userY).1 userY.id
          = some { profileEmptyStr with discord_id := some "Y" } :=
  ⟨(profileSync_falsy_gates [profileEmptyStr] userEmptyPid).1 (by decide),
    (profileSync_falsy_gates [profileEmptyStr] userY).2 profileEmptyStr "Y"
      (by decide) rfl rfl (by decide)⟩

end AuthContext
